import Mathlib

/-!
Verification of the redux-fundamentals repository (src/index.js) against its
natural-language specification.

The repository itself contains the two example transition functions
(cakeReducer, iceCreamReducer), their initial states, the action creators and
the wiring; the state container (createStore, dispatch, subscribe) and the
Reducer Composer (combineReducers) are supplied by the redux package, whose
code is not part of src/.  Those parts are therefore modelled from the spec
(sections 3, 4.1, 4.2) and carry a doc comment saying so.

JavaScript numbers are modelled by Int (the examples only subtract 1, and the
spec notes counters may go negative).  Reference identity, which the spec
talks about for the no-op signal and for the fresh-composite rule, is
modelled by a Ref wrapper pairing an object identity (a Nat) with the value.
-/

namespace ReduxFundamentals

/-- A change request: src/index.js actions are plain objects carrying only a
type discriminant, for example (buyCake() returns \x7b type: BUY_CAKE \x7d). -/
structure Action where
  type : String
deriving DecidableEq, Repr

/-- Discriminant constant from src/index.js. -/
def BUY_CAKE : String := "BUY_CAKE"

/-- Discriminant constant from src/index.js. -/
def BUY_ICECREAM : String := "BUY_ICECREAM"

/-- Action creator buyCake from src/index.js. -/
def buyCake : Action := { type := BUY_CAKE }

/-- Action creator buyIceCream from src/index.js. -/
def buyIceCream : Action := { type := BUY_ICECREAM }

/-- The cake slice of state, shape \x7b noOfCakes \x7d from src/index.js. -/
structure CakeState where
  noOfCakes : Int
deriving DecidableEq, Repr

/-- The ice-cream slice of state, shape \x7b noOfIceCreams \x7d. -/
structure IceCreamState where
  noOfIceCreams : Int
deriving DecidableEq, Repr

/-- initialCakeState from src/index.js. -/
def initialCakeState : CakeState := { noOfCakes := 10 }

/-- initialIceCreamState from src/index.js. -/
def initialIceCreamState : IceCreamState := { noOfIceCreams := 20 }

/-- cakeReducer from src/index.js: a default parameter supplies
initialCakeState when the incoming state is undefined (modelled as none);
the switch has one recognized case, BUY_CAKE, which returns a copy of the
state with noOfCakes decremented by one, and the default branch returns the
state unchanged. -/
def cakeReducer (state : Option CakeState) (action : Action) : CakeState :=
  let s := state.getD initialCakeState
  if action.type = BUY_CAKE then { s with noOfCakes := s.noOfCakes - 1 }
  else s

/-- iceCreamReducer from src/index.js, analogous to cakeReducer with the
BUY_ICECREAM case decrementing noOfIceCreams. -/
def iceCreamReducer (state : Option IceCreamState) (action : Action) : IceCreamState :=
  let s := state.getD initialIceCreamState
  if action.type = BUY_ICECREAM then { s with noOfIceCreams := s.noOfIceCreams - 1 }
  else s

/-- The composite state tree keyed by cake and iceCream, the keys of the
reducer map passed to combineReducers in src/index.js. -/
structure StateTree where
  cake : CakeState
  iceCream : IceCreamState
deriving DecidableEq, Repr

/-- Modelled from the spec: combineReducers is supplied by the redux package
and its code is not under src/.  Spec section 4.2: for each key k the
composed transition function computes nextSlice_k by applying reducerMap[k]
to the prior slice at k (undefined when the whole tree is absent) and the
request, builds nextState from the slices, and returns it.  This is that
composed function instantiated at the reducer map
\x7b cake: cakeReducer, iceCream: iceCreamReducer \x7d of src/index.js. -/
def rootReducer (state : Option StateTree) (action : Action) : StateTree :=
  { cake := cakeReducer (state.map StateTree.cake) action
    iceCream := iceCreamReducer (state.map StateTree.iceCream) action }

/-- Construction-time failure of the Reducer Composer (spec section 4.2). -/
inductive ComposerError where
  | emptyReducerMapError
deriving DecidableEq, Repr

/-- Modelled from the spec: the generic Reducer Composer, combine(reducerMap),
section 4.2.  Slices share one type here; the composite state is an
association list keyed like the reducer map.  If the reducer map is empty the
composer fails at construction time with EmptyReducerMapError, before any
transition function is produced; otherwise it returns the composed transition
function computing each slice from reducerMap[k](state?.[k], request). -/
def combine {α : Type} (reducerMap : List (String × (Option α → Action → α))) :
    Except ComposerError (Option (List (String × α)) → Action → List (String × α)) :=
  if reducerMap.isEmpty then
    Except.error ComposerError.emptyReducerMapError
  else
    Except.ok (fun state action =>
      reducerMap.map (fun kr => (kr.1, kr.2 (List.lookup kr.1 (state.getD [])) action)))

/-- A heap reference: an object identity paired with the object value.  Used
to state the reference-identity facts of the spec (same-reference no-op
signal, fresh composite) in the shallow embedding. -/
structure Ref (α : Type) where
  id : Nat
  val : α
deriving DecidableEq, Repr

/-- Identity of the module-level initialCakeState object of src/index.js. -/
def initialCakeStateId : Nat := 0

/-- Identity of the module-level initialIceCreamState object. -/
def initialIceCreamStateId : Nat := 1

/-- cakeReducer at the reference level: the BUY_CAKE case evaluates an object
spread, allocating a fresh object whose identity is the fresh argument; the
default branch of the switch returns the very state reference it was given. -/
def cakeReducerRef (state : Option (Ref CakeState)) (action : Action) (fresh : Nat) :
    Ref CakeState :=
  let s := state.getD { id := initialCakeStateId, val := initialCakeState }
  if action.type = BUY_CAKE then
    { id := fresh, val := { s.val with noOfCakes := s.val.noOfCakes - 1 } }
  else s

/-- iceCreamReducer at the reference level, analogous to cakeReducerRef. -/
def iceCreamReducerRef (state : Option (Ref IceCreamState)) (action : Action) (fresh : Nat) :
    Ref IceCreamState :=
  let s := state.getD { id := initialIceCreamStateId, val := initialIceCreamState }
  if action.type = BUY_ICECREAM then
    { id := fresh, val := { s.val with noOfIceCreams := s.val.noOfIceCreams - 1 } }
  else s

/-- The composite state tree at the reference level: each slice is itself a
reference, as in the JavaScript object graph. -/
structure StateTreeRef where
  cake : Ref CakeState
  iceCream : Ref IceCreamState
deriving DecidableEq, Repr

/-- Modelled from the spec: the composed transition function at the reference
level (combineReducers is not under src/).  Spec section 4.2 step 3: nextState
is returned unconditionally as a new composite value; freshRoot is the
identity of that newly built composite object, while each slice keeps
whatever reference its sub-transition-function returned (freshCake and
freshIce are the identities the slice reducers would use if they allocate). -/
def rootReducerRef (state : Option (Ref StateTreeRef)) (action : Action)
    (freshCake freshIce freshRoot : Nat) : Ref StateTreeRef :=
  { id := freshRoot
    val :=
      { cake := cakeReducerRef (state.map (fun r => r.val.cake)) action freshCake
        iceCream := iceCreamReducerRef (state.map (fun r => r.val.iceCream)) action freshIce } }

/-- Errors surfaced by the store (spec section 7). -/
inductive StoreError where
  | invalidRequestError
  | inProgressDispatchError
deriving DecidableEq, Repr

/-- Modelled from the spec: the Store (spec section 4.1), whose code lives in
the redux package, not under src/.  Observers are identified by subscription
tokens (Nat); listeners holds the tokens in subscription order;
nextListenerId is the next fresh token; isDispatching is the in-flight flag
enforcing the single-dispatch rule. -/
structure Store (σ : Type) where
  reducer : Option σ → Action → σ
  state : σ
  listeners : List Nat
  nextListenerId : Nat
  isDispatching : Bool

/-- The reserved internal discriminant used to establish the default state
(spec section 4.1). -/
def initAction : Action := { type := "@@INIT" }

/-- Modelled from the spec: createStore(transitionFunction) establishes the
initial state by invoking transitionFunction(undefined, \x7b kind: "@@INIT" \x7d)
and starts with no observers and no dispatch in flight. -/
def createStore {σ : Type} (transitionFunction : Option σ → Action → σ) : Store σ :=
  { reducer := transitionFunction
    state := transitionFunction none initAction
    listeners := []
    nextListenerId := 0
    isDispatching := false }

/-- The store as observed from inside a transition function or an observer
callback: the dispatch that invoked them is still in flight, so the
isDispatching flag is set. -/
def inFlightStore {σ : Type} (s : Store σ) : Store σ :=
  { s with isDispatching := true }

/-- Modelled from the spec: dispatch (spec section 4.1).  A re-entrant call
(one made while a dispatch is in flight) is rejected with
InProgressDispatchError and changes nothing.  Otherwise the store enters the
in-flight critical section, invokes the transition function on the current
state and the request, commits the returned state, clears the flag, and
notifies every observer subscribed at the start of the notification pass, in
subscription order, with no reference-equality check against the prior state.
The second component reports the outcome: the ordered list of observer tokens
notified, or the error. -/
def dispatch {σ : Type} (s : Store σ) (action : Action) :
    Store σ × Except StoreError (List Nat) :=
  if s.isDispatching then
    (s, Except.error StoreError.inProgressDispatchError)
  else
    let inFlight := inFlightStore s
    let newState := inFlight.reducer (some inFlight.state) action
    ({ inFlight with state := newState, isDispatching := false },
     Except.ok s.listeners)

/-- Modelled from the spec: subscribe registers the observer at the end of
the registry and returns its fresh subscription token, the identity the
unsubscribe handle removes. -/
def subscribe {σ : Type} (s : Store σ) : Store σ × Nat :=
  ({ s with
      listeners := s.listeners ++ [s.nextListenerId]
      nextListenerId := s.nextListenerId + 1 },
   s.nextListenerId)

/-- Modelled from the spec: invoking the unsubscribe handle removes exactly
its associated observer from the registry. -/
def unsubscribe {σ : Type} (s : Store σ) (handle : Nat) : Store σ :=
  { s with listeners := s.listeners.filter (fun t => decide (t ≠ handle)) }

/-- The scenario run by src/index.js: create the composed store, subscribe
one observer, dispatch buyCake three times and buyIceCream twice. -/
def storeAfterScenario : Store StateTree :=
  let s0 := createStore rootReducer
  let s1 := (subscribe s0).1
  let s2 := (dispatch s1 buyCake).1
  let s3 := (dispatch s2 buyCake).1
  let s4 := (dispatch s3 buyCake).1
  let s5 := (dispatch s4 buyIceCream).1
  (dispatch s5 buyIceCream).1

/-- C1: starting from the composed store whose initial slices are
noOfCakes = 10 and noOfIceCreams = 20, dispatching three BUY_CAKE requests
followed by two BUY_ICECREAM requests leaves getState() equal to
cake.noOfCakes = 7 and iceCream.noOfIceCreams = 18. -/
theorem scenario_final_state :
    storeAfterScenario.state =
      { cake := { noOfCakes := 7 }, iceCream := { noOfIceCreams := 18 } } := by
  decide

/-- C5: createStore establishes the initial state by invoking the transition
function at undefined and the reserved internal init request; for the
composed cake/iceCream store, getState() before any dispatch is
cake.noOfCakes = 10 and iceCream.noOfIceCreams = 20, the defaults supplied by
the transition functions when state is absent. -/
theorem create_store_initial_state :
    (∀ (σ : Type) (f : Option σ → Action → σ),
      (createStore f).state = f none initAction)
    ∧ (createStore rootReducer).state =
        { cake := { noOfCakes := 10 }, iceCream := { noOfIceCreams := 20 } } :=
  ⟨fun _ _ => rfl, by decide⟩

/-- C8: applying the Reducer Composer to an empty reducer map fails at
construction time with an EmptyReducerMapError: combine returns the error
itself rather than a transition function, so no store can be created from it
and no request ever dispatched through it. -/
theorem combine_empty_map_fails :
    ∀ (α : Type),
      combine ([] : List (String × (Option α → Action → α))) =
        Except.error ComposerError.emptyReducerMapError :=
  fun _ => rfl

/-- C2: for every state tree and every request, the composed transition
function returns a composite whose value at each key equals that key's
sub-transition-function applied to the prior slice at that key and the
request; in particular, for a request recognized only by one
sub-transition-function, every other key's slice is unchanged in value. -/
theorem combined_reducer_per_key (s : Option StateTree) (a : Action) :
    (rootReducer s a).cake = cakeReducer (s.map StateTree.cake) a
    ∧ (rootReducer s a).iceCream = iceCreamReducer (s.map StateTree.iceCream) a
    ∧ (∀ t : StateTree, a.type ≠ BUY_CAKE → (rootReducer (some t) a).cake = t.cake)
    ∧ (∀ t : StateTree, a.type ≠ BUY_ICECREAM →
        (rootReducer (some t) a).iceCream = t.iceCream) := by
  refine ⟨rfl, rfl, ?_, ?_⟩ <;> intro t h <;>
    simp [rootReducer, cakeReducer, iceCreamReducer, h]

/-- Witness for C2 at a concrete input: a BUY_CAKE request is recognized only
by cakeReducer, and the iceCream slice comes out unchanged. -/
theorem combined_reducer_per_key_witness :
    (rootReducer
        (some { cake := { noOfCakes := 4 }, iceCream := { noOfIceCreams := 5 } })
        buyCake).iceCream = { noOfIceCreams := 5 } :=
  (combined_reducer_per_key
      (some { cake := { noOfCakes := 4 }, iceCream := { noOfIceCreams := 5 } })
      buyCake).2.2.2
    { cake := { noOfCakes := 4 }, iceCream := { noOfIceCreams := 5 } } (by decide)

/-- C6: for every state and every request whose discriminant the transition
function does not recognize (anything other than BUY_CAKE for cakeReducer,
other than BUY_ICECREAM for iceCreamReducer), the default branch returns the
very state reference it was given, value and identity alike; both functions
are total in the model, so neither throws for unrecognized requests. -/
theorem unrecognized_request_same_reference (s : Ref CakeState) (t : Ref IceCreamState)
    (a : Action) (freshC freshI : Nat) :
    (a.type ≠ BUY_CAKE → cakeReducerRef (some s) a freshC = s)
    ∧ (a.type ≠ BUY_ICECREAM → iceCreamReducerRef (some t) a freshI = t)
    ∧ (a.type ≠ BUY_CAKE → cakeReducer (some s.val) a = s.val)
    ∧ (a.type ≠ BUY_ICECREAM → iceCreamReducer (some t.val) a = t.val) := by
  refine ⟨fun h => ?_, fun h => ?_, fun h => ?_, fun h => ?_⟩ <;>
    simp [cakeReducerRef, iceCreamReducerRef, cakeReducer, iceCreamReducer, h]

/-- Witness for C6 at a concrete input: a BUY_ICECREAM request is not
recognized by cakeReducer, which hands back the same reference. -/
theorem unrecognized_request_same_reference_witness :
    cakeReducerRef (some { id := 7, val := { noOfCakes := 3 } }) buyIceCream 9 =
      { id := 7, val := { noOfCakes := 3 } } :=
  (unrecognized_request_same_reference { id := 7, val := { noOfCakes := 3 } }
      { id := 8, val := { noOfIceCreams := 6 } } buyIceCream 9 9).1 (by decide)

/-- A concrete reference-level state tree used to instantiate theorems. -/
def demoTreeRef : Ref StateTreeRef :=
  { id := 0
    val :=
      { cake := { id := 2, val := { noOfCakes := 3 } }
        iceCream := { id := 3, val := { noOfIceCreams := 4 } } } }

/-- A request recognized by no sub-transition-function. -/
def noopAction : Action := { type := "NOOP" }

/-- C7: for every state tree and every request, including requests recognized
by no sub-transition-function, where every slice comes back
reference-identical to its prior slice, the composed transition function
returns a newly allocated composite, never the prior composite reference:
its identity is the fresh one, distinct from the prior identity. -/
theorem composed_reducer_fresh_composite (s : Ref StateTreeRef) (a : Action)
    (fc fi fr : Nat) (hfr : fr ≠ s.id) :
    (rootReducerRef (some s) a fc fi fr).id = fr
    ∧ (rootReducerRef (some s) a fc fi fr).id ≠ s.id
    ∧ (a.type ≠ BUY_CAKE → a.type ≠ BUY_ICECREAM →
        (rootReducerRef (some s) a fc fi fr).val.cake = s.val.cake
        ∧ (rootReducerRef (some s) a fc fi fr).val.iceCream = s.val.iceCream) := by
  refine ⟨rfl, hfr, fun h1 h2 => ?_⟩
  simp [rootReducerRef, cakeReducerRef, iceCreamReducerRef, h1, h2]

/-- Witness for C7 at a concrete input: a NOOP request leaves both slice
references untouched, yet the composite returned carries the fresh identity
12, not the prior identity 0. -/
theorem composed_reducer_fresh_composite_witness :
    (rootReducerRef (some demoTreeRef) noopAction 10 11 12).id = 12
    ∧ (rootReducerRef (some demoTreeRef) noopAction 10 11 12).id ≠ demoTreeRef.id
    ∧ (rootReducerRef (some demoTreeRef) noopAction 10 11 12).val.cake =
        demoTreeRef.val.cake :=
  ⟨(composed_reducer_fresh_composite demoTreeRef noopAction 10 11 12 (by decide)).1,
   (composed_reducer_fresh_composite demoTreeRef noopAction 10 11 12 (by decide)).2.1,
   ((composed_reducer_fresh_composite demoTreeRef noopAction 10 11 12
      (by decide)).2.2 (by decide) (by decide)).1⟩

/-- A concrete store used to instantiate theorems: its transition function
returns the prior state unchanged for every request, and one observer is
subscribed (token 0). -/
def demoStore : Store CakeState :=
  (subscribe (createStore (fun st _ => st.getD initialCakeState))).1

/-- C3: for every committed dispatch, the notification pass invokes exactly
the observers subscribed at its start, in subscription order (the outcome
list is the subscription registry itself), and the pass happens even when the
transition function hands back a state identical to the prior one: no
notification is skipped on reference equality. -/
theorem dispatch_notifies_all_subscribed {σ : Type} (s : Store σ) (a : Action)
    (h : s.isDispatching = false) :
    (dispatch s a).2 = Except.ok s.listeners
    ∧ (s.reducer (some s.state) a = s.state →
        (dispatch s a).2 = Except.ok s.listeners
        ∧ (dispatch s a).1.state = s.state) := by
  refine ⟨?_, fun hst => ⟨?_, ?_⟩⟩
  · simp [dispatch, inFlightStore, h]
  · simp [dispatch, inFlightStore, h]
  · simp [dispatch, inFlightStore, h, hst]

/-- Witness for C3 at a concrete input: dispatching on demoStore, whose
transition function returns the identical state, still notifies its one
observer while leaving the state untouched. -/
theorem dispatch_notifies_all_subscribed_witness :
    (dispatch demoStore buyCake).2 = Except.ok demoStore.listeners
    ∧ (dispatch demoStore buyCake).1.state = demoStore.state :=
  ⟨(dispatch_notifies_all_subscribed demoStore buyCake rfl).1,
   ((dispatch_notifies_all_subscribed demoStore buyCake rfl).2 rfl).2⟩

/-- C4: a dispatch attempted while another dispatch is in flight, which is
the situation of any dispatch call made synchronously from inside a
transition function or an observer callback, is rejected with
InProgressDispatchError, and the store, its state included, is left exactly
as it was by the rejected call. -/
theorem reentrant_dispatch_rejected {σ : Type} (s : Store σ) (a : Action) :
    (s.isDispatching = true →
      dispatch s a = (s, Except.error StoreError.inProgressDispatchError))
    ∧ dispatch (inFlightStore s) a =
        (inFlightStore s, Except.error StoreError.inProgressDispatchError)
    ∧ (dispatch (inFlightStore s) a).1.state = s.state :=
  ⟨fun h => by simp [dispatch, h], rfl, rfl⟩

/-- Witness for C4 at a concrete input: dispatching on demoStore while its
dispatch is in flight is rejected and changes nothing. -/
theorem reentrant_dispatch_rejected_witness :
    dispatch (inFlightStore demoStore) buyCake =
      (inFlightStore demoStore, Except.error StoreError.inProgressDispatchError) :=
  (reentrant_dispatch_rejected (inFlightStore demoStore) buyCake).1 rfl

/-- A concrete store with two subscribed observers, tokens 0 and 1. -/
def demoStore2 : Store CakeState :=
  (subscribe (subscribe (createStore (fun st _ => st.getD initialCakeState))).1).1

/-- C9: invoking the unsubscribe handle removes exactly its associated
observer: that token is gone from the registry, every other subscribed token
stays, and no later committed dispatch notifies the removed token; invoking
the handle a second time is a no-op, not an error: the store after two
invocations equals the store after one. -/
theorem unsubscribe_removes_exactly_and_idempotent {σ : Type} (s : Store σ) (h : Nat) :
    h ∉ (unsubscribe s h).listeners
    ∧ (∀ t, t ∈ s.listeners → t ≠ h → t ∈ (unsubscribe s h).listeners)
    ∧ (∀ a, s.isDispatching = false → ∀ l,
        (dispatch (unsubscribe s h) a).2 = Except.ok l → h ∉ l)
    ∧ unsubscribe (unsubscribe s h) h = unsubscribe s h := by
  have hmem : h ∉ (unsubscribe s h).listeners := by
    simp [unsubscribe, List.mem_filter]
  refine ⟨hmem, ?_, ?_, ?_⟩
  · intro t ht hne
    simp [unsubscribe, List.mem_filter, ht, hne]
  · intro a hd l hl
    have hd2 : (unsubscribe s h).isDispatching = false := hd
    simp [dispatch, inFlightStore, hd2] at hl
    rw [← hl]
    exact hmem
  · simp [unsubscribe, List.filter_filter]

/-- Witness for C9 at a concrete input: removing token 0 from the two-observer
store keeps token 1, a later dispatch notifies only token 1, and a second
removal changes nothing further. -/
theorem unsubscribe_removes_exactly_and_idempotent_witness :
    0 ∉ (unsubscribe demoStore2 0).listeners
    ∧ 1 ∈ (unsubscribe demoStore2 0).listeners
    ∧ (0 : Nat) ∉ ([1] : List Nat)
    ∧ unsubscribe (unsubscribe demoStore2 0) 0 = unsubscribe demoStore2 0 :=
  ⟨(unsubscribe_removes_exactly_and_idempotent demoStore2 0).1,
   (unsubscribe_removes_exactly_and_idempotent demoStore2 0).2.1 1
     (by decide) (by decide),
   (unsubscribe_removes_exactly_and_idempotent demoStore2 0).2.2.1 buyCake rfl
     [1] rfl,
   (unsubscribe_removes_exactly_and_idempotent demoStore2 0).2.2.2⟩

/-- The cake slice after n BUY_CAKE requests from the initial state. -/
def cakesAfter : Nat → CakeState
  | 0 => initialCakeState
  | n + 1 => cakeReducer (some (cakesAfter n)) buyCake

/-- The ice-cream slice after n BUY_ICECREAM requests from the initial state. -/
def iceCreamsAfter : Nat → IceCreamState
  | 0 => initialIceCreamState
  | n + 1 => iceCreamReducer (some (iceCreamsAfter n)) buyIceCream

/-- After n BUY_CAKE requests the counter holds 10 - n, with no lower bound. -/
theorem cakesAfter_noOfCakes (n : Nat) : (cakesAfter n).noOfCakes = 10 - n := by
  induction n with
  | zero => simp [cakesAfter, initialCakeState]
  | succ n ih =>
      simp [cakesAfter, cakeReducer, buyCake, BUY_CAKE, ih]
      ring

/-- After n BUY_ICECREAM requests the counter holds 20 - n. -/
theorem iceCreamsAfter_noOfIceCreams (n : Nat) :
    (iceCreamsAfter n).noOfIceCreams = 20 - n := by
  induction n with
  | zero => simp [iceCreamsAfter, initialIceCreamState]
  | succ n ih =>
      simp [iceCreamsAfter, iceCreamReducer, buyIceCream, BUY_ICECREAM, ih]
      ring

/-- C10: neither reducer bounds its counter below: every BUY_CAKE request
(respectively BUY_ICECREAM) decrements the count field by exactly 1 whatever
its current value, so more than 10 BUY_CAKE requests (respectively more than
20 BUY_ICECREAM requests) from the initial state drive the counter
negative. -/
theorem unbounded_decrement_goes_negative (s : CakeState) (t : IceCreamState)
    (n m : Nat) :
    (cakeReducer (some s) buyCake).noOfCakes = s.noOfCakes - 1
    ∧ (iceCreamReducer (some t) buyIceCream).noOfIceCreams = t.noOfIceCreams - 1
    ∧ (10 < n → (cakesAfter n).noOfCakes < 0)
    ∧ (20 < m → (iceCreamsAfter m).noOfIceCreams < 0) := by
  refine ⟨?_, ?_, fun hn => ?_, fun hm => ?_⟩
  · simp [cakeReducer, buyCake, BUY_CAKE]
  · simp [iceCreamReducer, buyIceCream, BUY_ICECREAM]
  · rw [cakesAfter_noOfCakes]
    omega
  · rw [iceCreamsAfter_noOfIceCreams]
    omega

/-- Witness for C10 at a concrete input: BUY_CAKE at a zero counter
decrements anyway, and 11 BUY_CAKE or 21 BUY_ICECREAM requests leave a
negative counter. -/
theorem unbounded_decrement_goes_negative_witness :
    (cakeReducer (some { noOfCakes := 0 }) buyCake).noOfCakes = 0 - 1
    ∧ (cakesAfter 11).noOfCakes < 0
    ∧ (iceCreamsAfter 21).noOfIceCreams < 0 :=
  ⟨(unbounded_decrement_goes_negative { noOfCakes := 0 } { noOfIceCreams := 0 }
      11 21).1,
   (unbounded_decrement_goes_negative { noOfCakes := 0 } { noOfIceCreams := 0 }
      11 21).2.2.1 (by decide),
   (unbounded_decrement_goes_negative { noOfCakes := 0 } { noOfIceCreams := 0 }
      11 21).2.2.2 (by decide)⟩

end ReduxFundamentals
